import Mathlib

/-!
Verification of the telemuze listener/composer orchestration core.

Shallow embedding of `listener.py` (the `Scheduler` dispatch loop, the
per-job protocol `Scheduler._run_job`, transcript delivery, worker
teardown, the cache warmer, filename sanitization) and of
`composer/composer.py` (the remote transcription command).  External
effects (grid provisioning, SSH, Telegram, ffmpeg, whisperx) are
modelled as explicit outcome parameters supplied by an environment
record; the control flow acting on those outcomes is translated
directly from the Python source.
-/

namespace Telemuze

/-- Terminal outcomes reported to the submitter by the job runner:
"Done", "Failed <detail>" (via `_send_error_reply`), or "Canceled". -/
inductive Outcome
  | done
  | failed (msg : String)
  | canceled
deriving DecidableEq, Repr

/-- The two exception classes distinguished by `_run_job`'s except
clauses: `asyncio.TimeoutError` versus any other `Exception`. -/
inductive ExcKind
  | timeoutExc
  | otherExc
deriving DecidableEq, Repr

/-- Result of `provision_composer`: an IP string, or a raised error
(deploy failure / no mycelium_ip returned). -/
inductive ProvisionOutcome
  | ok (ip : String)
  | err
deriving DecidableEq, Repr

def ProvisionOutcome.isOk : ProvisionOutcome → Bool
  | .ok _ => true
  | .err => false

/-- Outcome of a remote step that either succeeds or raises. -/
inductive StepOutcome
  | ok
  | fail
deriving DecidableEq, Repr

/-- The fields of the single trailing JSON line printed by
`composer.py` (absent fields are `none`; an absent `ok` is falsy,
modelled as `ok := false`). -/
structure CJson where
  ok : Bool := false
  language : Option String := none
  durationSec : Option Nat := none
  textPath : Option String := none
  chars : Option Nat := none
  error : Option String := none
deriving DecidableEq, Repr

/-- The last non-empty stdout line of the remote transcription command,
as seen by `run_ssh_command_with_json`: no lines at all (yields the
empty dict), unparsable JSON (raises), or a parsed object. -/
inductive ParsedLine
  | noLines
  | malformed
  | obj (j : CJson)
deriving DecidableEq, Repr

/-- Outcome of the remote transcription command under
`asyncio.wait_for`: it either completes with an exit status and a
trailing line, or the overall job timeout fires. -/
inductive CmdOutcome
  | completes (exitStatus : Nat) (lastLine : ParsedLine)
  | timesOut
deriving DecidableEq, Repr

/-- Outcome of the `cat <text_path>` fetch command. -/
inductive FetchOutcome
  | ok (text : String)
  | err
  | timesOut
deriving DecidableEq, Repr

/-- Environment for one `Scheduler._run_job` execution: the outcome of
each external call, and the value of the job's cancellation flag as
observed at each of the three points where the code reads it
(`job.cancel_event.is_set()` at listener.py lines 389, 419, 437). -/
structure RunJobEnv where
  provision : ProvisionOutcome
  cancelBeforeConnect : Bool
  connect : StepOutcome
  mkdirs : StepOutcome
  upload : StepOutcome
  cancelBeforeTranscribe : Bool
  transcribe : CmdOutcome
  cancelBeforeFetch : Bool
  fetch : FetchOutcome
  deliver : StepOutcome
deriving DecidableEq, Repr

/-- Observable events of one `_run_job` execution: which protocol steps
were invoked, which terminal outcomes were reported, and the teardown
actions of the `finally` block. -/
structure Trace where
  vmNameAssigned : Bool := false
  provisionCalls : Nat := 0
  connectCalls : Nat := 0
  uploadCalls : Nat := 0
  transcribeCalls : Nat := 0
  fetchCalls : Nat := 0
  reported : List Outcome := []
  destroyCalls : Nat := 0
  localCleanups : Nat := 0
  globalReleases : Nat := 0
  userReleases : Nat := 0
  jobRemoved : Bool := false
  taskRemoved : Bool := false
deriving DecidableEq, Repr

/-- Model of `run_ssh_command` + `run_ssh_command_with_json` for the
transcription command: a timeout propagates `asyncio.TimeoutError`;
a nonzero exit status raises `RuntimeError` before any JSON parsing;
otherwise the last non-empty line is parsed (empty output yields the
empty dict, a parse failure raises `RuntimeError`). -/
def runSshCommandWithJson (c : CmdOutcome) : Except ExcKind CJson :=
  match c with
  | .timesOut => .error .timeoutExc
  | .completes exitStatus lastLine =>
    if exitStatus ≠ 0 then .error .otherExc
    else
      match lastLine with
      | .noLines => .ok {}
      | .malformed => .error .otherExc
      | .obj j => .ok j

/-- Python truthiness of `text_path`: falsy when absent or empty. -/
def pyTruthyStr : Option String → Bool
  | none => false
  | some s => s ≠ ""

/-- The `try` block of `Scheduler._run_job` (listener.py 379-472),
returning the events so far and the exception (if any) escaping to the
outer `except`/`finally`.  The nested `finally` (remote `rm -rf` with
`contextlib.suppress` and `conn.close()`) performs no observable
action in the trace. -/
def runJobTry (env : RunJobEnv) : Trace × Option ExcKind :=
  -- status "Provisioning worker…", vm_name assigned, provision_composer
  let t : Trace := { vmNameAssigned := true, provisionCalls := 1 }
  match env.provision with
  | .err => (t, some .otherExc)
  | .ok _ip =>
    if env.cancelBeforeConnect then
      ({ t with reported := t.reported ++ [.canceled] }, none)
    else
      -- status "Connecting to worker…", connect_ssh_with_retries
      let t1 := { t with connectCalls := 1 }
      match env.connect with
      | .fail => (t1, some .otherExc)
      | .ok =>
        -- mkdir -p of the remote dirs
        match env.mkdirs with
        | .fail => (t1, some .otherExc)
        | .ok =>
          -- status "Uploading...", asyncssh.scp
          let t2 := { t1 with uploadCalls := 1 }
          match env.upload with
          | .fail => (t2, some .otherExc)
          | .ok =>
            if env.cancelBeforeTranscribe then
              ({ t2 with reported := t2.reported ++ [.canceled] }, none)
            else
              -- status "Transcribing…", run_ssh_command_with_json
              let t3 := { t2 with transcribeCalls := 1 }
              match runSshCommandWithJson env.transcribe with
              | .error e => (t3, some e)
              | .ok j =>
                if env.cancelBeforeFetch then
                  ({ t3 with reported := t3.reported ++ [.canceled] }, none)
                else if j.ok = false then
                  ({ t3 with reported := t3.reported ++
                      [.failed ("Transcription failed: " ++
                        j.error.getD "Transcription failed")] }, none)
                else if pyTruthyStr j.textPath = false then
                  ({ t3 with reported := t3.reported ++
                      [.failed "No transcript produced."] }, none)
                else
                  -- fetch transcript text via cat
                  let t4 := { t3 with fetchCalls := 1 }
                  match env.fetch with
                  | .err => (t4, some .otherExc)
                  | .timesOut => (t4, some .timeoutExc)
                  | .ok _text =>
                    -- _send_transcript_reply (may raise)
                    match env.deliver with
                    | .fail => (t4, some .otherExc)
                    | .ok =>
                      ({ t4 with reported := t4.reported ++ [.done] }, none)

/-- Full `Scheduler._run_job`: the `try` block, the two `except`
clauses (timeout message / generic internal error), and the `finally`
block (local cleanup; destroy the composer whenever a vm name was
assigned; pop the task and job tables; release both semaphores). -/
def runJob (env : RunJobEnv) : Trace :=
  let r := runJobTry env
  let t := r.1
  let t1 :=
    match r.2 with
    | none => t
    | some ExcKind.timeoutExc =>
      { t with reported := t.reported ++
          [Outcome.failed "This job exceeded the maximum processing time and was canceled."] }
    | some ExcKind.otherExc =>
      { t with reported := t.reported ++
          [Outcome.failed "An internal error occurred while processing your file."] }
  { t1 with
    localCleanups := t1.localCleanups + 1,
    destroyCalls := t1.destroyCalls + (if t1.vmNameAssigned then 1 else 0),
    taskRemoved := true,
    jobRemoved := true,
    globalReleases := t1.globalReleases + 1,
    userReleases := t1.userReleases + 1 }

/-! ## Scheduler dispatch loop (`Scheduler.run`, listener.py 336-354) -/

/-- A queued job as seen by the dispatch loop: its identity, its
submitter, and its cancellation flag at dequeue time. -/
structure QJob where
  jobId : Nat
  userId : Nat
  cancelFlag : Bool
deriving DecidableEq, Repr

/-- Observable effects of one iteration of the dispatch loop on the
job it dequeued.  `updatesLastWarmTs` records whether the iteration
writes `scheduler.last_cache_warm_ts`; the source loop never does. -/
structure DispatchResult where
  reportedCanceled : Bool
  localCleanup : Bool
  jobRemovedFromLive : Bool
  acquiredGlobal : Bool
  acquiredUser : Bool
  startedRunner : Bool
  updatesLastWarmTs : Bool
deriving DecidableEq, Repr

/-- One iteration of `Scheduler.run`: dequeue a job; if its
cancellation flag is set, report Canceled, clean up the staged input,
drop the live-job entry and continue; otherwise acquire the global
semaphore, then the submitter's semaphore, then start `_run_job` as a
task. -/
def dispatchIteration (j : QJob) : DispatchResult :=
  if j.cancelFlag then
    { reportedCanceled := true, localCleanup := true, jobRemovedFromLive := true,
      acquiredGlobal := false, acquiredUser := false, startedRunner := false,
      updatesLastWarmTs := false }
  else
    { reportedCanceled := false, localCleanup := false, jobRemovedFromLive := false,
      acquiredGlobal := true, acquiredUser := true, startedRunner := true,
      updatesLastWarmTs := false }

/-! ## Scheduler concurrency as a transition system

`Scheduler.run` is a single loop that pops one job, acquires the
global semaphore and then the per-user semaphore, and starts the job
task; each `_run_job` releases both in its `finally` block.  The
states of the system and its atomic steps (with semaphore counters for
`asyncio.Semaphore(MAX_COMPOSERS)` / `asyncio.Semaphore(PER_USER_CONCURRENCY)`,
per-user semaphores created lazily with full count) are modelled
below.  A job is "running" from user-semaphore acquisition until its
`finally` releases the slots. -/

/-- Where the single dispatch loop stands inside one iteration. -/
inductive DispatcherPhase
  | idle
  | gotJob (j : QJob)
  | holdingGlobal (j : QJob)
deriving DecidableEq, Repr

/-- The scheduler's concurrency-relevant state. -/
structure SchedState where
  queue : List QJob
  globalAvail : Nat
  userAvail : Nat → Nat
  phase : DispatcherPhase
  running : List QJob

/-- Jobs of submitter `u` currently holding both slots. -/
def countUser (s : SchedState) (u : Nat) : Nat :=
  s.running.countP (fun j => j.userId == u)

/-- Initial scheduler state: empty running set, full semaphores
(lazily created per-user semaphores start at the per-user limit). -/
def initState (maxComposers perUser : Nat) (q : List QJob) : SchedState :=
  { queue := q, globalAvail := maxComposers,
    userAvail := fun _ => perUser, phase := .idle, running := [] }

/-- Atomic steps of the scheduler system.  Blocking semaphore
acquisition is modelled by the step being enabled only when a slot is
available; the order global-then-user is structural: `acquireUser` is
only enabled from the `holdingGlobal` phase, which only `acquireGlobal`
produces, and a job only starts running at `acquireUser`. -/
inductive SchedStep : SchedState → SchedState → Prop
  | submit (s : SchedState) (j : QJob) :
      SchedStep s { s with queue := s.queue ++ [j] }
  | dequeue (s : SchedState) (j : QJob) (rest : List QJob)
      (hq : s.queue = j :: rest) (hp : s.phase = .idle) :
      SchedStep s { s with queue := rest, phase := .gotJob j }
  | skipCanceled (s : SchedState) (j : QJob)
      (hp : s.phase = .gotJob j) (hc : j.cancelFlag = true) :
      SchedStep s { s with phase := .idle }
  | acquireGlobal (s : SchedState) (j : QJob)
      (hp : s.phase = .gotJob j) (hc : j.cancelFlag = false)
      (hg : 0 < s.globalAvail) :
      SchedStep s { s with
                      globalAvail := s.globalAvail - 1,
                      phase := .holdingGlobal j }
  | acquireUser (s : SchedState) (j : QJob)
      (hp : s.phase = .holdingGlobal j)
      (hu : 0 < s.userAvail j.userId) :
      SchedStep s { s with
                      userAvail := fun u =>
                        if u = j.userId then s.userAvail u - 1 else s.userAvail u,
                      phase := .idle,
                      running := j :: s.running }
  | finish (s : SchedState) (j : QJob) (l1 l2 : List QJob)
      (hr : s.running = l1 ++ j :: l2) :
      SchedStep s { s with
                      running := l1 ++ l2,
                      globalAvail := s.globalAvail + 1,
                      userAvail := fun u =>
                        if u = j.userId then s.userAvail u + 1 else s.userAvail u }

/-- States reachable from the initial state. -/
def SchedReachable (maxComposers perUser : Nat) (q : List QJob) (s : SchedState) : Prop :=
  Relation.ReflTransGen SchedStep (initState maxComposers perUser q) s

/-- Inductive invariant: each semaphore's available count plus the
slots held (by running jobs, and the global slot the dispatcher holds
between the two acquisitions) equals the configured limit. -/
def SchedInv (maxComposers perUser : Nat) (s : SchedState) : Prop :=
  s.globalAvail + s.running.length +
      (match s.phase with | .holdingGlobal _ => 1 | _ => 0) = maxComposers
  ∧ ∀ u, s.userAvail u + countUser s u = perUser

/-! ## Cache warmer (`cache_warmer_task`, listener.py 1031-1077) -/

/-- Outcome of the deploy-mode warming cycle's guarded section
(provision, connect, run the warm script): all succeed, or some step
raises. -/
inductive WarmDeployOutcome
  | ok
  | fail
deriving DecidableEq, Repr

/-- Result of one warmer tick. -/
structure WarmTickResult where
  lastWarmTs : Nat
  warmAttempted : Bool
  destroyCalls : Nat
deriving DecidableEq, Repr

/-- One tick of `cache_warmer_task`: if more than the configured
interval has elapsed since `last_cache_warm_ts` and the queue is
empty, perform a warming cycle.  In deploy mode a failure destroys the
throwaway worker and continues without touching the timestamp; on
success the worker is destroyed and the timestamp is reset.  In local
mode the warm script runs (any failure is only logged) and the
timestamp is reset unconditionally.  `localOk` is the local script's
outcome; the result does not depend on it. -/
def cacheWarmerTick (deploy : Bool) (intervalSec : Nat) (nowStart lastTs : Nat)
    (queueEmpty : Bool) (deployOutcome : WarmDeployOutcome) (localOk : Bool)
    (nowEnd : Nat) : WarmTickResult :=
  if intervalSec < nowStart - lastTs ∧ queueEmpty = true then
    if deploy then
      match deployOutcome with
      | .fail =>
        { lastWarmTs := lastTs, warmAttempted := true, destroyCalls := 1 }
      | .ok =>
        { lastWarmTs := nowEnd, warmAttempted := true, destroyCalls := 1 }
    else
      -- local run; `localOk` affects only a log line
      let _ := localOk
      { lastWarmTs := nowEnd, warmAttempted := true, destroyCalls := 0 }
  else
    { lastWarmTs := lastTs, warmAttempted := false, destroyCalls := 0 }

/-! ## Transcript delivery (`Scheduler._send_transcript_reply`,
listener.py 517-602) -/

/-- Telegram message char limit (listener.py 159). -/
def TELEGRAM_TEXT_LIMIT : Nat := 4096

/-- ASCII whitespace stripped by Python's `str.strip()`. -/
def isPySpace (c : Char) : Bool :=
  c == ' ' || c == '\t' || c == '\n' || c == '\x0d' || c == '\x0b' || c == '\x0c'

/-- Python `str.strip()` on a character list: drop leading and
trailing whitespace. -/
def pyStrip (s : List Char) : List Char :=
  ((s.dropWhile isPySpace).reverse.dropWhile isPySpace).reverse

/-- The in-place message of the final delivery: either an edit of the
preliminary message or a new message replying to the original request. -/
inductive MessageAction
  | editPreliminary (text : List Char)
  | newReplyToOriginal (text : List Char)
deriving DecidableEq, Repr

def MessageAction.text : MessageAction → List Char
  | .editPreliminary t => t
  | .newReplyToOriginal t => t

/-- The full delivery performed for a final transcript: one in-place
message, plus optionally a `.txt` attachment carrying the full text,
sent as a reply to the original request. -/
structure ReplyDelivery where
  message : MessageAction
  attachmentFullText : Option (List Char)
  attachmentRepliesToOriginal : Bool
deriving DecidableEq, Repr

/-- The no-speech notice text. -/
def noSpeechNotice : List Char :=
  "ℹ️ Transcription completed, but no speech was detected.".data

/-- Model of `Scheduler._send_transcript_reply`: strip the transcript; if empty
deliver the no-speech notice; otherwise edit the preliminary message
(if one exists) or send a new reply, truncating to the Telegram limit
and attaching the full text as a document replying to the original
message when the text is over the limit. -/
def sendTranscriptReply (hasPreliminary : Bool) (transcriptText : List Char) :
    ReplyDelivery :=
  let text := pyStrip transcriptText
  if text.isEmpty then
    if hasPreliminary then
      { message := .editPreliminary noSpeechNotice,
        attachmentFullText := none, attachmentRepliesToOriginal := false }
    else
      { message := .newReplyToOriginal noSpeechNotice,
        attachmentFullText := none, attachmentRepliesToOriginal := false }
  else if hasPreliminary then
    if text.length ≤ TELEGRAM_TEXT_LIMIT then
      { message := .editPreliminary text,
        attachmentFullText := none, attachmentRepliesToOriginal := false }
    else
      { message := .editPreliminary (text.take TELEGRAM_TEXT_LIMIT),
        attachmentFullText := some text, attachmentRepliesToOriginal := true }
  else
    if text.length ≤ TELEGRAM_TEXT_LIMIT then
      { message := .newReplyToOriginal text,
        attachmentFullText := none, attachmentRepliesToOriginal := false }
    else
      { message := .newReplyToOriginal (text.take TELEGRAM_TEXT_LIMIT),
        attachmentFullText := some text, attachmentRepliesToOriginal := true }

/-! ## Filename sanitization (`sanitize_filename`, listener.py 705-707) -/

/-- The character class of the regex `[^A-Za-z0-9._-]`: a character is
kept iff it is ASCII alphanumeric, dot, underscore or hyphen. -/
def allowedFilenameChar (c : Char) : Bool :=
  (decide ('A' ≤ c) && decide (c ≤ 'Z')) ||
  (decide ('a' ≤ c) && decide (c ≤ 'z')) ||
  (decide ('0' ≤ c) && decide (c ≤ '9')) ||
  c == '.' || c == '_' || c == '-'

/-- Model of `re.sub(r"[^A-Za-z0-9._-]+", "_", name)`: each maximal run of
disallowed characters is replaced by a single underscore.  The flag
tracks whether the previous character was part of such a run. -/
def sanitizeAux : Bool → List Char → List Char
  | _, [] => []
  | inBadRun, c :: rest =>
    if allowedFilenameChar c then c :: sanitizeAux false rest
    else if inBadRun then sanitizeAux true rest
    else '_' :: sanitizeAux true rest

/-- Full `sanitize_filename`: regex substitution, then truncation to 128
characters when longer. -/
def sanitize_filename (name : List Char) : List Char :=
  let safe := sanitizeAux false name
  if safe.length > 128 then safe.take 128 else safe

/-- The remote upload path built in `_run_job` (listener.py 399,
409-411): `/job/input/<job_id>/<sanitize_filename(original_filename)>`. -/
def remoteInputPath (jobId name : List Char) : List Char :=
  ("/job/input/".data ++ jobId) ++ "/".data ++ sanitize_filename name

/-! ## Worker teardown (`destroy_composer`, listener.py 637-644) -/

/-- Model of `destroy_composer`: skip entirely under the development IP
override; otherwise call `tfcmd.cancel_vm` inside
`contextlib.suppress(Exception)`, so any error from the underlying
cancel (including "already gone") is swallowed.  `cancelVm` is the
opaque external cancel operation, which may raise arbitrarily. -/
def destroy_composer (ipOverride : Bool) (cancelVm : String → Except String Unit)
    (vmName : String) : Except String Unit :=
  if ipOverride then Except.ok ()
  else
    match cancelVm vmName with
    | Except.ok _ => Except.ok ()
    | Except.error _ => Except.ok ()

/-! ## Composer (`composer/composer.py main`) -/

/-- Outcome of the ffmpeg conversion run by `run_to_log`: success,
`subprocess.TimeoutExpired`, or a nonzero exit (which makes
`run_to_log` raise `RuntimeError` carrying `msg`). -/
inductive FfmpegOutcome
  | ok
  | timeout
  | fails (msg : String)
deriving DecidableEq, Repr

/-- Environment for one composer run: existence of the input file, the
ffmpeg outcome, whether whisperx raises (and its message), the
language whisperx actually detects, the joined segment text, the
ffprobe duration, and whether the transcript file can be re-read for
the char count. -/
structure ComposerEnv where
  inputIsFile : Bool
  ffmpeg : FfmpegOutcome
  whisperxError : Option String
  detectedLanguage : String
  segmentsText : String
  durationSec : Nat
  readBackOk : Bool
deriving DecidableEq, Repr

/-- The command-line arguments of `composer.py`. -/
structure ComposerArgs where
  inPath : String
  model : String
  language : String
  jobId : String
deriving DecidableEq, Repr

/-- Model of `composer.py main`: returns the single trailing JSON result line
and the process exit code.  On success the printed `language` field is
`args.language` verbatim; the detected language in the whisperx result
is not consulted. -/
def composerMain (env : ComposerEnv) (args : ComposerArgs) : CJson × Nat :=
  if env.inputIsFile = false then
    ({ ok := false, error := some ("E_INPUT: file not found: " ++ args.inPath) }, 2)
  else
    let txtPath := "/job/output/" ++ args.jobId ++ "/transcript.txt"
    match env.ffmpeg with
    | .timeout =>
      ({ ok := false, error := some "E_FFMPEG_TIMEOUT: conversion timed out" }, 124)
    | .fails msg =>
      ({ ok := false, error := some ("E_WHISPERX: " ++ msg) }, 1)
    | .ok =>
      match env.whisperxError with
      | some msg =>
        ({ ok := false, error := some ("E_WHISPERX: " ++ msg) }, 1)
      | none =>
        ({ ok := true,
           language := some args.language,
           durationSec := some env.durationSec,
           textPath := some txtPath,
           chars := some (if env.readBackOk then env.segmentsText.length else 0) }, 0)

/-! ## Helper lemmas -/

/-- Whether the transcription command step returns a parsed JSON dict
(rather than raising). -/
def jsonStepOk (c : CmdOutcome) : Bool :=
  match runSshCommandWithJson c with
  | .ok _ => true
  | .error _ => false

/-- The try block assigns the vm name, performs no teardown action
itself, and reports exactly one terminal outcome iff no exception
escapes (an escaping exception is converted to exactly one "Failed"
report by the except clauses). -/
theorem runJobTry_spec (env : RunJobEnv) :
    (runJobTry env).1.vmNameAssigned = true ∧
    (runJobTry env).1.destroyCalls = 0 ∧
    (runJobTry env).1.localCleanups = 0 ∧
    (runJobTry env).1.globalReleases = 0 ∧
    (runJobTry env).1.userReleases = 0 ∧
    (runJobTry env).1.reported.length =
      (if (runJobTry env).2.isSome then 0 else 1) := by
  rcases env with ⟨prov, c1, conn, mk, up, c2, tr, c3, f, d⟩
  simp only [runJobTry, runSshCommandWithJson]
  repeat' split
  all_goals simp_all

/-- C1: for every admitted job (one that entered `_run_job`), on every
exit path — success, exception, overall timeout, or cancellation
observed at a checkpoint — teardown runs: the staged local input and
its directory are removed, `destroy_composer` is called on the job's
worker exactly once (a worker name is always assigned first), both
concurrency slots are released exactly once, the job is removed from
the live-job and task tables, and exactly one terminal outcome (Done,
Failed, or Canceled) is reported. -/
theorem runJob_teardown (env : RunJobEnv) :
    (runJob env).vmNameAssigned = true ∧
    (runJob env).destroyCalls = 1 ∧
    (runJob env).localCleanups = 1 ∧
    (runJob env).globalReleases = 1 ∧
    (runJob env).userReleases = 1 ∧
    (runJob env).jobRemoved = true ∧
    (runJob env).taskRemoved = true ∧
    (runJob env).reported.length = 1 := by
  have h := runJobTry_spec env
  simp only [runJob]
  rcases hr : runJobTry env with ⟨t, exc⟩
  rw [hr] at h
  simp only at h
  obtain ⟨hv, hd, hl, hg, hu, hrep⟩ := h
  cases exc with
  | none => simp_all
  | some e => cases e <;> simp_all

/-- C2: for every job whose cancellation flag is set before the
dispatch loop dequeues it, the loop reports Canceled, cleans up the
staged local input, removes the live-job entry, and continues without
acquiring the global or per-submitter semaphore and without starting
the job runner (hence no worker is ever provisioned for it, since
`provision_composer` is only called from `_run_job`). -/
theorem dispatch_skips_canceled (j : QJob) (h : j.cancelFlag = true) :
    (dispatchIteration j).reportedCanceled = true ∧
    (dispatchIteration j).localCleanup = true ∧
    (dispatchIteration j).jobRemovedFromLive = true ∧
    (dispatchIteration j).acquiredGlobal = false ∧
    (dispatchIteration j).acquiredUser = false ∧
    (dispatchIteration j).startedRunner = false := by
  simp [dispatchIteration, h]

/-- Witness for C2 at a concrete canceled job. -/
theorem dispatch_skips_canceled_witness :
    (dispatchIteration ⟨7, 42, true⟩).reportedCanceled = true ∧
    (dispatchIteration ⟨7, 42, true⟩).localCleanup = true ∧
    (dispatchIteration ⟨7, 42, true⟩).jobRemovedFromLive = true ∧
    (dispatchIteration ⟨7, 42, true⟩).acquiredGlobal = false ∧
    (dispatchIteration ⟨7, 42, true⟩).acquiredUser = false ∧
    (dispatchIteration ⟨7, 42, true⟩).startedRunner = false :=
  dispatch_skips_canceled ⟨7, 42, true⟩ rfl

/-- Environment for the C3 analysis: the job's cancellation flag is
already set when `_run_job` starts (so it reads true at every
checkpoint), and every external call would succeed. -/
def c3Json : CJson :=
  { ok := true, textPath := some "/job/output/j/transcript.txt" }

def c3Env : RunJobEnv :=
  { provision := .ok "10.1.2.3",
    cancelBeforeConnect := true,
    connect := .ok, mkdirs := .ok, upload := .ok,
    cancelBeforeTranscribe := true,
    transcribe := .completes 0 (.obj c3Json),
    cancelBeforeFetch := true,
    fetch := .ok "hi", deliver := .ok }

/-- C3 counterexample: a job whose cancellation flag is set before
`_run_job` even starts still has the Provisioning step executed
(`provision_composer` is called once); the claim that every one of the
five steps, Provisioning included, is preceded by a cancellation check
that skips it is therefore false. -/
theorem runJob_no_check_before_provisioning :
    (runJob c3Env).provisionCalls = 1 ∧
    (runJob c3Env).reported = [Outcome.canceled] := by decide

/-- The except clauses and the finally block change no step counter,
and when no exception escapes the try block the reported outcomes are
exactly those of the try block. -/
theorem runJob_counts (env : RunJobEnv) :
    (runJob env).connectCalls = (runJobTry env).1.connectCalls ∧
    (runJob env).uploadCalls = (runJobTry env).1.uploadCalls ∧
    (runJob env).transcribeCalls = (runJobTry env).1.transcribeCalls ∧
    (runJob env).fetchCalls = (runJobTry env).1.fetchCalls ∧
    ((runJobTry env).2 = none →
      (runJob env).reported = (runJobTry env).1.reported) := by
  simp only [runJob]
  rcases hr : runJobTry env with ⟨t, exc⟩
  cases exc with
  | none => simp
  | some e => cases e <;> simp

/-- If the flag is set at the first checkpoint (before Connecting),
no later step runs; when provisioning succeeded the job reports
Canceled and nothing escapes to the except clauses. -/
theorem try_cancel_before_connect (env : RunJobEnv)
    (h : env.cancelBeforeConnect = true) :
    (runJobTry env).1.connectCalls = 0 ∧
    (runJobTry env).1.uploadCalls = 0 ∧
    (runJobTry env).1.transcribeCalls = 0 ∧
    (runJobTry env).1.fetchCalls = 0 ∧
    (env.provision.isOk = true →
      (runJobTry env).2 = none ∧
      (runJobTry env).1.reported = [Outcome.canceled]) := by
  rcases env with ⟨prov, c1, conn, mk, up, c2, tr, c3, f, d⟩
  subst h
  cases prov <;> simp [runJobTry, ProvisionOutcome.isOk]

/-- If the flag is set at the second checkpoint (before Transcribing),
neither Transcribing nor Fetching runs; when the preceding steps
succeeded the job reports Canceled and nothing escapes. -/
theorem try_cancel_before_transcribe (env : RunJobEnv)
    (h : env.cancelBeforeTranscribe = true) :
    (runJobTry env).1.transcribeCalls = 0 ∧
    (runJobTry env).1.fetchCalls = 0 ∧
    (env.provision.isOk = true → env.connect = StepOutcome.ok →
      env.mkdirs = StepOutcome.ok → env.upload = StepOutcome.ok →
      (runJobTry env).2 = none ∧
      (runJobTry env).1.reported = [Outcome.canceled]) := by
  rcases env with ⟨prov, c1, conn, mk, up, c2, tr, c3, f, d⟩
  subst h
  cases prov <;> cases c1 <;> cases conn <;> cases mk <;> cases up <;>
    simp [runJobTry, ProvisionOutcome.isOk]

/-- If the flag is set at the third checkpoint (after the
transcription command returns, before Fetching), Fetching never runs;
when the preceding steps succeeded and the command produced a parsed
result, the job reports Canceled — before the result's failure flag is
even examined — and nothing escapes. -/
theorem try_cancel_before_fetch (env : RunJobEnv)
    (h : env.cancelBeforeFetch = true) :
    (runJobTry env).1.fetchCalls = 0 ∧
    (env.provision.isOk = true → env.connect = StepOutcome.ok →
      env.mkdirs = StepOutcome.ok → env.upload = StepOutcome.ok →
      jsonStepOk env.transcribe = true →
      (runJobTry env).2 = none ∧
      (runJobTry env).1.reported = [Outcome.canceled]) := by
  rcases env with ⟨prov, c1, conn, mk, up, c2, tr, c3, f, d⟩
  subst h
  cases prov <;> cases c1 <;> cases conn <;> cases mk <;> cases up <;>
      cases c2 <;> cases tr <;>
    simp only [runJobTry, runSshCommandWithJson, jsonStepOk,
      ProvisionOutcome.isOk]
  all_goals
    repeat' split
  all_goals simp_all

/-- C3 amended: only three of the five steps are preceded by a
cancellation check — Connecting (flag read after provisioning),
Transcribing (flag read after the upload), and Fetching (flag read
after the transcription command returns, before its result is
examined).  Whenever the flag is set at one of those reads, that step
and all later protocol steps are skipped and, provided the preceding
steps completed, the job reports Canceled and proceeds to teardown.
There is no check before Provisioning or before Uploading. -/
theorem runJob_checkpoints (env : RunJobEnv) :
    (env.cancelBeforeConnect = true →
      (runJob env).connectCalls = 0 ∧ (runJob env).uploadCalls = 0 ∧
      (runJob env).transcribeCalls = 0 ∧ (runJob env).fetchCalls = 0)
  ∧ (env.cancelBeforeTranscribe = true →
      (runJob env).transcribeCalls = 0 ∧ (runJob env).fetchCalls = 0)
  ∧ (env.cancelBeforeFetch = true → (runJob env).fetchCalls = 0)
  ∧ (env.cancelBeforeConnect = true → env.provision.isOk = true →
      (runJob env).reported = [Outcome.canceled])
  ∧ (env.cancelBeforeTranscribe = true → env.provision.isOk = true →
      env.connect = StepOutcome.ok → env.mkdirs = StepOutcome.ok →
      env.upload = StepOutcome.ok →
      (runJob env).reported = [Outcome.canceled])
  ∧ (env.cancelBeforeFetch = true → env.provision.isOk = true →
      env.connect = StepOutcome.ok → env.mkdirs = StepOutcome.ok →
      env.upload = StepOutcome.ok → jsonStepOk env.transcribe = true →
      (runJob env).reported = [Outcome.canceled]) := by
  obtain ⟨hc, hu, ht, hf, hrep⟩ := runJob_counts env
  refine ⟨?_, ?_, ?_, ?_, ?_, ?_⟩
  · intro h1
    obtain ⟨a, b, c, d, _⟩ := try_cancel_before_connect env h1
    exact ⟨hc.trans a, hu.trans b, ht.trans c, hf.trans d⟩
  · intro h2
    obtain ⟨a, b, _⟩ := try_cancel_before_transcribe env h2
    exact ⟨ht.trans a, hf.trans b⟩
  · intro h3
    exact hf.trans (try_cancel_before_fetch env h3).1
  · intro h1 hp
    obtain ⟨_, _, _, _, e⟩ := try_cancel_before_connect env h1
    obtain ⟨e1, e2⟩ := e hp
    exact (hrep e1).trans e2
  · intro h2 hp hcn hmk hup
    obtain ⟨_, _, e⟩ := try_cancel_before_transcribe env h2
    obtain ⟨e1, e2⟩ := e hp hcn hmk hup
    exact (hrep e1).trans e2
  · intro h3 hp hcn hmk hup hj
    obtain ⟨_, e⟩ := try_cancel_before_fetch env h3
    obtain ⟨e1, e2⟩ := e hp hcn hmk hup hj
    exact (hrep e1).trans e2

/-- Witness for C3's amended theorem at the concrete environment
`c3Env`, discharging every hypothesis. -/
theorem runJob_checkpoints_witness :
    ((runJob c3Env).connectCalls = 0 ∧ (runJob c3Env).uploadCalls = 0 ∧
      (runJob c3Env).transcribeCalls = 0 ∧ (runJob c3Env).fetchCalls = 0)
  ∧ ((runJob c3Env).transcribeCalls = 0 ∧ (runJob c3Env).fetchCalls = 0)
  ∧ (runJob c3Env).fetchCalls = 0
  ∧ (runJob c3Env).reported = [Outcome.canceled] := by
  have h := runJob_checkpoints c3Env
  exact ⟨h.1 rfl, h.2.1 rfl, h.2.2.1 rfl,
    h.2.2.2.1 rfl rfl⟩

/-! ## C4: ffmpeg-timeout failure propagation -/

/-- Composer environment in which the ffmpeg conversion exceeds its
timeout. -/
def c4ComposerEnv : ComposerEnv :=
  { inputIsFile := true, ffmpeg := .timeout, whisperxError := none,
    detectedLanguage := "en", segmentsText := "", durationSec := 0,
    readBackOk := true }

def c4Args : ComposerArgs :=
  { inPath := "/job/input/j1/voice-1.ogg", model := "turbo",
    language := "auto", jobId := "j1" }

/-- Listener environment for the same job: everything up to the
transcription command succeeds, and the remote command behaves exactly
as `composerMain` says — its exit code and its trailing JSON line are
the composer's. -/
def c4ListenerEnv : RunJobEnv :=
  { provision := .ok "10.1.2.3", cancelBeforeConnect := false,
    connect := .ok, mkdirs := .ok, upload := .ok,
    cancelBeforeTranscribe := false,
    transcribe := .completes (composerMain c4ComposerEnv c4Args).2
      (.obj (composerMain c4ComposerEnv c4Args).1),
    cancelBeforeFetch := false, fetch := .ok "", deliver := .ok }

/-- C4: when the remote transcription reports an ffmpeg timeout, the
composer does print the trailing line with
error "E_FFMPEG_TIMEOUT: conversion timed out" — but it also exits
with status 124, so `run_ssh_command` raises before
`run_ssh_command_with_json` ever parses the line, and the submitter is
shown the generic internal-error text instead of the composer's error;
the worker is still destroyed exactly once.  This refutes the part of
the claim that says the error text is surfaced. -/
theorem ffmpeg_timeout_error_not_surfaced :
    (composerMain c4ComposerEnv c4Args).1 =
      { ok := false, error := some "E_FFMPEG_TIMEOUT: conversion timed out" }
  ∧ (composerMain c4ComposerEnv c4Args).2 = 124
  ∧ (runJob c4ListenerEnv).reported =
      [Outcome.failed "An internal error occurred while processing your file."]
  ∧ (runJob c4ListenerEnv).destroyCalls = 1 := by decide

/-! ## C5: concurrency bounds -/

/-- The invariant holds initially. -/
theorem schedInv_init (maxComposers perUser : Nat) (q : List QJob) :
    SchedInv maxComposers perUser (initState maxComposers perUser q) := by
  constructor
  · simp [initState]
  · intro u
    simp [initState, countUser]

/-- Every scheduler step preserves the semaphore-accounting invariant. -/
theorem schedInv_step (maxComposers perUser : Nat) {s s' : SchedState}
    (hinv : SchedInv maxComposers perUser s) (hstep : SchedStep s s') :
    SchedInv maxComposers perUser s' := by
  obtain ⟨hg, hu⟩ := hinv
  cases hstep with
  | submit j =>
    exact ⟨hg, hu⟩
  | dequeue j rest hq hp =>
    refine ⟨?_, hu⟩
    rw [hp] at hg
    simpa using hg
  | skipCanceled j hp hc =>
    refine ⟨?_, hu⟩
    rw [hp] at hg
    simpa using hg
  | acquireGlobal j hp hc hglob =>
    refine ⟨?_, hu⟩
    rw [hp] at hg
    simp only at hg ⊢
    omega
  | acquireUser j hp huser =>
    rw [hp] at hg
    simp only at hg
    constructor
    · simp only [List.length_cons]
      omega
    · intro u
      have h1 := hu u
      simp only [countUser, List.countP_cons] at h1 ⊢
      by_cases he : u = j.userId
      · subst he
        simp at h1 ⊢
        omega
      · have hb : (j.userId == u) = false :=
          beq_eq_false_iff_ne.mpr (fun hh => he hh.symm)
        simp [he, hb] at h1 ⊢
        omega
  | finish j l1 l2 hr =>
    constructor
    · rw [hr] at hg
      simp only [List.length_append, List.length_cons] at hg ⊢
      omega
    · intro u
      have h1 := hu u
      simp only [countUser] at h1 ⊢
      rw [hr] at h1
      simp only [List.countP_append, List.countP_cons] at h1 ⊢
      by_cases he : u = j.userId
      · subst he
        simp at h1 ⊢
        omega
      · have hb : (j.userId == u) = false :=
          beq_eq_false_iff_ne.mpr (fun hh => he hh.symm)
        simp [he, hb] at h1 ⊢
        omega

/-- The invariant holds in every reachable state. -/
theorem sched_reachable_inv (maxComposers perUser : Nat) (q : List QJob)
    (s : SchedState) (h : SchedReachable maxComposers perUser q s) :
    SchedInv maxComposers perUser s := by
  induction h with
  | refl => exact schedInv_init maxComposers perUser q
  | tail hsteps hstep ih => exact schedInv_step maxComposers perUser ih hstep

/-- C5: in every reachable scheduler state, the number of jobs holding
both concurrency slots (those in the Provisioning … Fetching states)
is at most the global limit, and per submitter at most the per-user
limit.  Acquisition order is structural in `SchedStep`: the only step
that starts a job (`acquireUser`) requires the dispatcher to be in the
`holdingGlobal` phase, which only `acquireGlobal` produces, and both
happen before the job-runner task starts. -/
theorem scheduler_concurrency_bound (maxComposers perUser : Nat)
    (q : List QJob) (s : SchedState)
    (h : SchedReachable maxComposers perUser q s) :
    s.running.length ≤ maxComposers ∧ ∀ u, countUser s u ≤ perUser := by
  obtain ⟨hg, hu⟩ := sched_reachable_inv maxComposers perUser q s h
  constructor
  · omega
  · intro u
    have := hu u
    omega

/-- Witness for C5 at the initial state (reachable by reflexivity). -/
theorem scheduler_concurrency_bound_witness :
    (initState 1 1 []).running.length ≤ 1 ∧ countUser (initState 1 1 []) 0 ≤ 1 := by
  have h := scheduler_concurrency_bound 1 1 [] (initState 1 1 [])
    Relation.ReflTransGen.refl
  exact ⟨h.1, h.2 0⟩

/-! ## C6: cache-warmer idle timer -/

/-- C6 divergences: (a) a successful normal job dispatch does not
update `last_cache_warm_ts` — `Scheduler.run` never writes it, even
though `cache_warmer_task`'s own docstring says regular deployments
reset it; (b) in local (non-deploy) mode a warming cycle whose warm
script fails (`localOk = false`) still resets the idle timer to the
current time, so a failed cycle is not retried after the claimed
short backoff. -/
theorem warmer_timestamp_divergence :
    (dispatchIteration ⟨1, 2, false⟩).startedRunner = true
  ∧ (dispatchIteration ⟨1, 2, false⟩).updatesLastWarmTs = false
  ∧ (cacheWarmerTick false 43200 100000 0 true WarmDeployOutcome.ok false
      100007).warmAttempted = true
  ∧ (cacheWarmerTick false 43200 100000 0 true WarmDeployOutcome.ok false
      100007).lastWarmTs = 100007 := by decide

/-! ## C7: transcript delivery -/

/-- C7: for every delivered final transcript, if the stripped text is
non-empty and exceeds the Telegram limit, the in-place message
(preliminary edit or new message) carries exactly the first 4096
characters and the full text is attached as a document replying to the
original request; if the stripped text is empty, the no-speech notice
is delivered and nothing is attached. -/
theorem transcript_reply_spec (hasPreliminary : Bool)
    (transcriptText : List Char) :
    (pyStrip transcriptText ≠ [] →
      TELEGRAM_TEXT_LIMIT < (pyStrip transcriptText).length →
      (sendTranscriptReply hasPreliminary transcriptText).message.text =
          (pyStrip transcriptText).take TELEGRAM_TEXT_LIMIT
        ∧ ((sendTranscriptReply hasPreliminary transcriptText).message.text).length
            = TELEGRAM_TEXT_LIMIT
        ∧ (sendTranscriptReply hasPreliminary transcriptText).attachmentFullText
            = some (pyStrip transcriptText)
        ∧ (sendTranscriptReply hasPreliminary
            transcriptText).attachmentRepliesToOriginal = true)
  ∧ (pyStrip transcriptText = [] →
      (sendTranscriptReply hasPreliminary transcriptText).message.text
          = noSpeechNotice
        ∧ (sendTranscriptReply hasPreliminary transcriptText).attachmentFullText
            = none) := by
  constructor
  · intro hne hlen
    have hempty : (pyStrip transcriptText).isEmpty = false := by
      cases hp : pyStrip transcriptText <;> simp_all
    have hnotle : ¬ (pyStrip transcriptText).length ≤ TELEGRAM_TEXT_LIMIT := by
      omega
    cases hasPreliminary <;>
      simp [sendTranscriptReply, hempty, hnotle, MessageAction.text,
        List.length_take] <;>
      omega
  · intro he
    cases hasPreliminary <;>
      simp [sendTranscriptReply, he, MessageAction.text]

/-- Stripping an all-letter transcript is the identity. -/
theorem pyStrip_replicate_a (n : Nat) :
    pyStrip (List.replicate n 'a') = List.replicate n 'a' := by
  have hdrop : ∀ m : Nat,
      List.dropWhile isPySpace (List.replicate m 'a') = List.replicate m 'a' := by
    intro m
    cases m with
    | zero => rfl
    | succ k =>
      have hna : isPySpace 'a' = false := by decide
      simp [List.replicate_succ, List.dropWhile_cons, hna]
  unfold pyStrip
  rw [hdrop, List.reverse_replicate, hdrop, List.reverse_replicate]

/-- Witness for C7: a 4097-character transcript of letters. -/
theorem transcript_reply_spec_witness :
    ((sendTranscriptReply true (List.replicate 4097 'a')).message.text).length
      = TELEGRAM_TEXT_LIMIT
  ∧ (sendTranscriptReply true (List.replicate 4097 'a')).attachmentFullText
      = some (pyStrip (List.replicate 4097 'a'))
  ∧ (sendTranscriptReply true
      (List.replicate 4097 'a')).attachmentRepliesToOriginal = true := by
  have h := (transcript_reply_spec true (List.replicate 4097 'a')).1
    (by
      rw [pyStrip_replicate_a]
      intro hc
      have hlen := congrArg List.length hc
      rw [List.length_replicate] at hlen
      simp at hlen)
    (by rw [pyStrip_replicate_a, List.length_replicate]; decide)
  exact ⟨h.2.1, h.2.2.1, h.2.2.2⟩

/-! ## C8: destroy idempotence -/

/-- C8: `destroy_composer` never raises to its caller — whatever the
underlying `tfcmd.cancel_vm` does (including failing because the
worker is already gone or was never fully provisioned), and a second
call on the same name (with the external cancel now possibly behaving
differently) also completes without error. -/
theorem destroy_composer_never_raises (ipOverride : Bool)
    (cancelVm1 cancelVm2 : String → Except String Unit) (vmName : String) :
    destroy_composer ipOverride cancelVm1 vmName = Except.ok ()
  ∧ destroy_composer ipOverride cancelVm2 vmName = Except.ok () := by
  constructor <;>
    · unfold destroy_composer
      split
      · rfl
      · split <;> rfl

/-! ## C9: filename sanitization -/

/-- Every character emitted by the regex substitution is in the
allowed class (kept characters are allowed by the guard; replacements
are underscores, which are allowed). -/
theorem sanitizeAux_allowed (l : List Char) :
    ∀ (b : Bool), ∀ c ∈ sanitizeAux b l, allowedFilenameChar c = true := by
  induction l with
  | nil =>
    intro b c hc
    simp [sanitizeAux] at hc
  | cons a rest ih =>
    intro b c hc
    by_cases ha : allowedFilenameChar a = true
    · simp only [sanitizeAux, if_pos ha, List.mem_cons] at hc
      rcases hc with rfl | hc
      · exact ha
      · exact ih false c hc
    · cases b with
      | true =>
        simp [sanitizeAux, ha] at hc
        exact ih true c hc
      | false =>
        simp [sanitizeAux, ha] at hc
        rcases hc with rfl | hc
        · decide
        · exact ih true c hc

/-- C9: `sanitize_filename` returns only characters from
`[A-Za-z0-9._-]` (each maximal run of other characters having been
replaced by one underscore, per `sanitizeAux`), its result is at most
128 characters long, and the remote upload path interpolates exactly
this sanitized name after `/job/input/<job_id>/`. -/
theorem sanitize_filename_spec (name : List Char) :
    (∀ c ∈ sanitize_filename name, allowedFilenameChar c = true)
  ∧ (sanitize_filename name).length ≤ 128
  ∧ (∀ jobId, remoteInputPath jobId name =
      ("/job/input/".data ++ jobId) ++ "/".data ++ sanitize_filename name) := by
  refine ⟨?_, ?_, fun _ => rfl⟩
  · intro c hc
    simp only [sanitize_filename] at hc
    split at hc
    · exact sanitizeAux_allowed name false c (List.mem_of_mem_take hc)
    · exact sanitizeAux_allowed name false c hc
  · simp only [sanitize_filename]
    split
    · simp [List.length_take]
    · omega

/-- Witness for C9 on the concrete name "a b" (sanitized to "a_b"). -/
theorem sanitize_filename_spec_witness :
    allowedFilenameChar '_' = true
  ∧ (sanitize_filename ['a', ' ', 'b']).length ≤ 128 := by
  have h := sanitize_filename_spec ['a', ' ', 'b']
  exact ⟨h.1 '_' (by decide), h.2.1⟩

/-! ## C10: reported language -/

/-- C10: on every successful composer run the `language` field of the
trailing JSON result equals the `--language` argument verbatim
(including the literal "auto"), not the language whisperx detected. -/
theorem composer_reports_requested_language (env : ComposerEnv)
    (args : ComposerArgs) (h : (composerMain env args).1.ok = true) :
    (composerMain env args).1.language = some args.language
  ∧ (env.detectedLanguage ≠ args.language →
      (composerMain env args).1.language ≠ some env.detectedLanguage) := by
  rcases env with ⟨inp, ff, wx, dl, st, du, rb⟩
  cases inp
  · simp [composerMain] at h
  · cases ff <;> cases wx <;> simp_all [composerMain]
    intro hne heq
    exact hne heq.symm

/-- Composer environment for the C10 witness: a successful run in
which whisperx detects "en" while the requested language is "auto". -/
def c10Env : ComposerEnv :=
  { inputIsFile := true, ffmpeg := .ok, whisperxError := none,
    detectedLanguage := "en", segmentsText := "hello", durationSec := 5,
    readBackOk := true }

def c10Args : ComposerArgs :=
  { inPath := "/job/input/j2/a.mp3", model := "turbo", language := "auto",
    jobId := "j2" }

/-- Witness for C10 at a concrete successful run. -/
theorem composer_reports_requested_language_witness :
    (composerMain c10Env c10Args).1.language = some "auto"
  ∧ (composerMain c10Env c10Args).1.language ≠ some "en" := by
  have h := composer_reports_requested_language c10Env c10Args (by decide)
  exact ⟨h.1, h.2 (by decide)⟩

end Telemuze
